import Mathlib

/-!
# SyncAV — verification of the reconciliation engine (src/src/main.ts)

Shallow embedding of the `SyncAV` class from the repository's `src/src/main.ts`
(the converged iteration: `ReconciliationState` enum, `MAX_RECONCILE_ATTEMPTS`,
expecting-pause flags).  Media-element commands (`play`, `pause`, setting
`currentTime`) are modelled by their synchronous attribute effects on a `Media`
record; asynchronous environment activity between loop iterations (the
`await asyncTimeout(50)` suspension points) is modelled by an `Env` step
function that may rewrite both media records arbitrarily.  Emitted events and
issued media commands are collected in output lists.  Times are rationals; the
drift tolerance `0.05` of the source is `1/20`.
-/

namespace SyncAV

/-- Readiness ordinal `HTMLMediaElement.HAVE_METADATA`. -/
def HAVE_METADATA : Nat := 1

/-- Readiness ordinal `HTMLMediaElement.HAVE_FUTURE_DATA`. -/
def HAVE_FUTURE_DATA : Nat := 3

/-- The constant `MAX_RECONCILE_ATTEMPTS = 20 * 30` (src/src/main.ts line 17). -/
def MAX_RECONCILE_ATTEMPTS : Nat := 20 * 30

/-- The enum `ReconciliationState` with IDLE, RUNNING, FAILED (lines 19-23). -/
inductive ReconciliationState
  | IDLE
  | RUNNING
  | FAILED
deriving DecidableEq, Repr

/-- Observable state of one underlying media element (the external
collaborator).  `srcLoaded` models the truthiness of `elem.src`
(`primaryLoaded` / `secondaryLoaded` getters, lines 65-71). -/
structure Media where
  srcLoaded : Bool
  paused : Bool
  ended : Bool
  readyState : Nat
  currentTime : ℚ
deriving DecidableEq, Repr

/-- Command `elem.pause()`: the `paused` attribute becomes true synchronously. -/
def Media.doPause (m : Media) : Media := { m with paused := true }

/-- Command `elem.play()`: the `paused` attribute becomes false synchronously. -/
def Media.doPlay (m : Media) : Media := { m with paused := false }

/-- Assignment `elem.currentTime = t`: seeking re-arms the `ended` flag. -/
def Media.setTime (m : Media) (t : ℚ) : Media :=
  { m with currentTime := t, ended := false }

/-- Commands the engine issues to the two media elements. -/
inductive Cmd
  | primaryPause
  | primaryPlay
  | secondaryPause
  | secondaryPlay
  | primarySetTime (t : ℚ)
  | secondarySetTime (t : ℚ)
  | primaryLoad
  | secondaryLoad
deriving DecidableEq, Repr

/-- Events emitted through `callEventListeners`.  A
`reconciliationstatechange` listener observes the controller's state at
emission time, so that event carries the freshly assigned value. -/
inductive Ev
  | durationchange
  | error
  | loadedmetadata
  | playbackchange
  | reconciliationstatechange (st : ReconciliationState)
  | seekchange
  | timeupdate
  | volumechange
deriving DecidableEq, Repr

/-- Controller-owned state of the `SyncAV` class (fields at lines 34-43). -/
structure AV where
  primary : Media
  secondary : Media
  userPaused : Bool
  userSeeking : Bool
  reconciliationState : ReconciliationState
  expectingPrimaryPause : Bool
  expectingSecondaryPause : Bool
deriving DecidableEq, Repr

/-- The `userPaused` setter (lines 49-53): assign, and emit `playbackchange`
exactly when the value changed. -/
def setUserPaused (s : AV) (v : Bool) : AV × List Ev :=
  ({ s with userPaused := v },
   if s.userPaused = v then [] else [Ev.playbackchange])

/-- The `reconciliationState` setter (lines 59-63): assign, and emit
`reconciliationstatechange` exactly when the value changed. -/
def setReconciliationState (s : AV) (v : ReconciliationState) : AV × List Ev :=
  ({ s with reconciliationState := v },
   if s.reconciliationState = v then [] else [Ev.reconciliationstatechange v])

/-- Drift tolerance: the literal `0.05` of lines 103 (as the reduced
fraction 1/20). -/
def tolerance : ℚ := Rat.divInt 1 20

/-- The `Math.abs` function on rational times. -/
def ratAbs (q : ℚ) : ℚ := if q < 0 then -q else q

/-- Result of the `pauseExpectedly` closure (lines 81-98): updated state,
issued commands, and the `altered` return value. -/
structure PE where
  s : AV
  cmds : List Cmd
  altered : Bool
deriving Repr

/-- The closure `pauseExpectedly(pausePrimary, pauseSecondary)` (lines 81-98): for each
selected resource that is not paused (secondary additionally requires a
loaded source), set its expecting-pause flag and issue `pause()`. -/
def pauseExpectedly (s : AV) (pausePrimary pauseSecondary : Bool) : PE :=
  let first :=
    if s.primary.paused = false ∧ pausePrimary = true then
      PE.mk { s with expectingPrimaryPause := true, primary := s.primary.doPause }
        [Cmd.primaryPause] true
    else PE.mk s [] false
  if first.s.secondary.srcLoaded = true ∧ first.s.secondary.paused = false
      ∧ pauseSecondary = true then
    PE.mk { first.s with expectingSecondaryPause := true,
                         secondary := first.s.secondary.doPause }
      (first.cmds ++ [Cmd.secondaryPause]) true
  else first

/-- The closure `syncCurrentTime` (lines 99-113): when a secondary source is loaded and
the two positions drift beyond the tolerance, snap the secondary to the
primary's position; returns whether it acted. -/
def syncCurrentTime (s : AV) : AV × List Cmd × Bool :=
  if s.secondary.srcLoaded = true
      ∧ tolerance < ratAbs (s.primary.currentTime - s.secondary.currentTime) then
    ({ s with secondary := s.secondary.setTime s.primary.currentTime },
     [Cmd.secondarySetTime s.primary.currentTime], true)
  else (s, [], false)

/-- One iteration of the `for` loop body of `reconcile` (lines 128-194),
minus the attempt-cap check: resulting state, emitted events, issued
commands, and whether the body reached a `continue` (`cont = true`) or a
`break` (`cont = false`). -/
structure IterOut where
  s : AV
  evs : List Ev
  cmds : List Cmd
  cont : Bool
deriving Repr

/-- The pause branch (lines 128-132): `pauseExpectedly()`, `continue` iff
it altered anything. -/
def iterPaused (s : AV) : IterOut :=
  let pe := pauseExpectedly s true true
  IterOut.mk pe.s [] pe.cmds pe.altered

/-- The not-ready branch (lines 150-175): `play()` each resource that *is*
ready (to kick its loading along), expectedly pause each one that is not,
then `continue`.  `ae` carries the commands already issued earlier in the
iteration (the ended-reset). -/
def iterNotReady (s2 : AV) (ae : List Cmd) : IterOut :=
  let stepP :=
    if s2.primary.readyState < HAVE_FUTURE_DATA then
      let pe := pauseExpectedly s2 true false
      (pe.s, pe.cmds)
    else ({ s2 with primary := s2.primary.doPlay }, [Cmd.primaryPlay])
  let stepS :=
    if s2.secondary.srcLoaded = true
        ∧ s2.secondary.readyState < HAVE_FUTURE_DATA then
      let pe := pauseExpectedly stepP.1 false true
      (pe.s, pe.cmds)
    else ({ stepP.1 with secondary := stepP.1.secondary.doPlay },
          [Cmd.secondaryPlay])
  IterOut.mk stepS.1 [] (ae ++ stepP.2 ++ stepS.2) true

/-- The both-ready tail (lines 176-193): expectedly `play()` whatever still
reports paused, clearing its expecting-pause flag; `break` when nothing
needed playing. -/
def iterFinal (s2 : AV) (ae : List Cmd) : IterOut :=
  let stepP :=
    if s2.primary.paused = true then
      ({ s2 with expectingPrimaryPause := false,
                 primary := s2.primary.doPlay },
       [Cmd.primaryPlay], true)
    else (s2, ([] : List Cmd), false)
  let stepS :=
    if stepP.1.secondary.srcLoaded = true
        ∧ stepP.1.secondary.paused = true then
      ({ stepP.1 with expectingSecondaryPause := false,
                      secondary := stepP.1.secondary.doPlay },
       [Cmd.secondaryPlay], true)
    else (stepP.1, ([] : List Cmd), stepP.2.2)
  IterOut.mk stepS.1 [] (ae ++ stepP.2.1 ++ stepS.2.1) stepS.2.2

/-- The desired-playing branch (lines 133-193): ended reset, time sync,
readiness gate, then the play tail. -/
def iterPlayBranch (s : AV) : IterOut :=
  let afterEnded :=
    if s.primary.ended = true then
      ({ s with primary := s.primary.setTime 0 }, [Cmd.primarySetTime 0])
    else (s, ([] : List Cmd))
  let sync := syncCurrentTime afterEnded.1
  if sync.2.2 = true then
    IterOut.mk sync.1 [] (afterEnded.2 ++ sync.2.1) true
  else
    let s2 := afterEnded.1
    if s2.primary.readyState < HAVE_FUTURE_DATA
        ∨ (s2.secondary.srcLoaded = true
           ∧ s2.secondary.readyState < HAVE_FUTURE_DATA) then
      iterNotReady s2 afterEnded.2
    else
      iterFinal s2 afterEnded.2

def reconcileIter (s : AV) : IterOut :=
  if s.userPaused = true ∨ s.userSeeking = true then iterPaused s
  else if s.primary.srcLoaded = false then
    let r := setUserPaused s true
    IterOut.mk r.1 r.2 [] true
  else iterPlayBranch s

/-- Environment activity during the `await asyncTimeout(50)` between loop
iterations: an arbitrary rewrite of the two media records (buffering
progress, external pauses, readiness regressions, ...).  It cannot touch the
controller-owned fields. -/
structure Env where
  step : Nat → Media × Media → Media × Media

def envStep (env : Env) (n : Nat) (s : AV) : AV :=
  let p := env.step n (s.primary, s.secondary)
  { s with primary := p.1, secondary := p.2 }

/-- The identity environment: media state changes only through engine
commands. -/
def idEnv : Env := Env.mk fun _ m => m

/-- Result of running the loop (or a whole pass): final state, events,
commands, and the value of `attempts` when the loop exited (the number of
executed command iterations). -/
structure LoopOut where
  s : AV
  evs : List Ev
  cmds : List Cmd
  iters : Nat
deriving Repr

/-- The `attempts == MAX_RECONCILE_ATTEMPTS` exit (lines 120-127): force
`userPaused = true`, transition to FAILED, `break`. -/
def failExit (s : AV) (attempts : Nat) : LoopOut :=
  let r1 := setUserPaused s true
  let r2 := setReconciliationState r1.1 ReconciliationState.FAILED
  LoopOut.mk r2.1 (r1.2 ++ r2.2) [] attempts

/-- The `for` loop of `reconcile` (lines 114-195).  `fuel` only bounds the
recursion; the canonical call has `fuel = MAX_RECONCILE_ATTEMPTS` and
`attempts = 0`, under which the cap check always fires before fuel runs
out. -/
def reconcileLoop (env : Env) : Nat → Nat → AV → LoopOut
  | fuel, attempts, s =>
    if attempts = MAX_RECONCILE_ATTEMPTS then failExit s attempts
    else
      let it := reconcileIter s
      if it.cont = true then
        match fuel with
        | 0 => LoopOut.mk it.s it.evs it.cmds (attempts + 1)
        | fuel' + 1 =>
          let rest :=
            reconcileLoop env fuel' (attempts + 1) (envStep env attempts it.s)
          LoopOut.mk rest.s (it.evs ++ rest.evs) (it.cmds ++ rest.cmds)
            rest.iters
      else LoopOut.mk it.s it.evs it.cmds attempts

/-- The `reconcile` member (lines 74-197): single-flight guard, transition
to RUNNING, the capped loop, then the unconditional final assignment
`this.reconciliationState = ReconciliationState.IDLE` (line 196).  An
absorbed trigger reports `iters = 0` and does nothing. -/
def triggerReconcile (env : Env) (s : AV) : LoopOut :=
  if s.reconciliationState = ReconciliationState.RUNNING then
    LoopOut.mk s [] [] 0
  else
    let r1 := setReconciliationState s ReconciliationState.RUNNING
    let lo := reconcileLoop env MAX_RECONCILE_ATTEMPTS 0 r1.1
    let r2 := setReconciliationState lo.s ReconciliationState.IDLE
    LoopOut.mk r2.1 (r1.2 ++ lo.evs ++ r2.2) lo.cmds lo.iters

/-- Public `pause()` (lines 363-367): `userPaused = true`, then
`reconcile()`. -/
def pauseOp (env : Env) (s : AV) : LoopOut :=
  let r1 := setUserPaused s true
  let r2 := triggerReconcile env r1.1
  LoopOut.mk r2.s (r1.2 ++ r2.evs) r2.cmds r2.iters

/-- Public `play()` (lines 369-375): `userPaused = false`, then
`reconcile()`. -/
def playOp (env : Env) (s : AV) : LoopOut :=
  let r1 := setUserPaused s false
  let r2 := triggerReconcile env r1.1
  LoopOut.mk r2.s (r1.2 ++ r2.evs) r2.cmds r2.iters

/-- The synchronous write of `set currentTime` (lines 315-320) before the
trigger: `if (this.primaryLoaded) this.primary.currentTime = timestamp`. -/
def setCurrentTimeWrite (s : AV) (t : ℚ) : AV × List Cmd :=
  if s.primary.srcLoaded = true then
    ({ s with primary := s.primary.setTime t }, [Cmd.primarySetTime t])
  else (s, [])

/-- The setter `set currentTime` (lines 315-320): direct write to primary's position
when loaded, then `reconcile()`. -/
def setCurrentTimeOp (env : Env) (s : AV) (t : ℚ) : LoopOut :=
  let w := setCurrentTimeWrite s t
  let r := triggerReconcile env w.1
  LoopOut.mk r.s r.evs (w.2 ++ r.cmds) r.iters

/-- The getter `get currentTime` (lines 279-281). -/
def getCurrentTime (s : AV) : ℚ := s.primary.currentTime

/-- The getter `get paused` (lines 303-305): reflects desired intent `userPaused`. -/
def getPaused (s : AV) : Bool := s.userPaused

/-- The primary `pause` listener (lines 208-215): an expected pause only
clears the flag; an unexpected one invokes the public `pause()` path. -/
def onPrimaryPauseEvent (env : Env) (s : AV) : LoopOut :=
  if s.expectingPrimaryPause = true then
    LoopOut.mk { s with expectingPrimaryPause := false } [] [] 0
  else pauseOp env s

/-- The secondary `pause` listener (lines 216-223). -/
def onSecondaryPauseEvent (env : Env) (s : AV) : LoopOut :=
  if s.expectingSecondaryPause = true then
    LoopOut.mk { s with expectingSecondaryPause := false } [] [] 0
  else pauseOp env s

/-- The primary `ended` listener (line 242): `this.userPaused = true`
through the setter; no reconcile request. -/
def onPrimaryEnded (s : AV) : AV × List Ev := setUserPaused s true

/-- Error `InvalidSourceConfiguration`: the synchronous `assertState` failure of
`setSource` (line 382). -/
inductive SetSourceError
  | InvalidSourceConfiguration
deriving DecidableEq, Repr

/-- JavaScript truthiness of an optional source string (`!!primary`,
`!secondary`): `undefined`, `null` and `""` are falsy. -/
def truthy : Option String → Bool
  | none => false
  | some v => v ≠ ""

/-- Helper `setSrc` inside `setSource` (lines 383-394): a truthy value assigns the
source and calls `load()` (a fresh load resets the element's readiness);
a falsy value clears the source, leaving the element as if never loaded. -/
def Media.setSrc (m : Media) (v : Option String) (loadCmd : Cmd) :
    Media × List Cmd :=
  if truthy v = true then
    ({ m with srcLoaded := true, readyState := 0, ended := false,
              paused := true, currentTime := 0 }, [loadCmd])
  else
    ({ m with srcLoaded := false, readyState := 0, ended := false,
              paused := true, currentTime := 0 }, [])

/-- Method `setSource(primary, secondary)` (lines 377-397):
`assertState(!!primary || !secondary)` throws synchronously before any
mutation; otherwise both sources are assigned. -/
def setSourceOp (s : AV) (p sc : Option String) :
    Except SetSourceError (AV × List Cmd) :=
  if truthy p = true ∨ truthy sc = false then
    let r1 := s.primary.setSrc p Cmd.primaryLoad
    let r2 := s.secondary.setSrc sc Cmd.secondaryLoad
    Except.ok ({ s with primary := r1.1, secondary := r2.1 }, r1.2 ++ r2.2)
  else Except.error SetSourceError.InvalidSourceConfiguration

/-! ## Basic field lemmas -/

theorem tolerance_eq : tolerance = 1 / 20 := by
  unfold tolerance
  rw [Rat.divInt_eq_div]
  norm_num

theorem ratAbs_eq_abs (q : ℚ) : ratAbs q = |q| := by
  unfold ratAbs
  by_cases hq : q < 0
  · rw [if_pos hq, abs_of_neg hq]
  · rw [if_neg hq, abs_of_nonneg (not_lt.mp hq)]

@[simp] theorem Media.doPause_srcLoaded (m : Media) : m.doPause.srcLoaded = m.srcLoaded := rfl
@[simp] theorem Media.doPause_readyState (m : Media) : m.doPause.readyState = m.readyState := rfl
@[simp] theorem Media.doPause_currentTime (m : Media) : m.doPause.currentTime = m.currentTime := rfl
@[simp] theorem Media.doPause_ended (m : Media) : m.doPause.ended = m.ended := rfl
@[simp] theorem Media.doPause_paused (m : Media) : m.doPause.paused = true := rfl

@[simp] theorem Media.doPlay_srcLoaded (m : Media) : m.doPlay.srcLoaded = m.srcLoaded := rfl
@[simp] theorem Media.doPlay_readyState (m : Media) : m.doPlay.readyState = m.readyState := rfl
@[simp] theorem Media.doPlay_currentTime (m : Media) : m.doPlay.currentTime = m.currentTime := rfl
@[simp] theorem Media.doPlay_ended (m : Media) : m.doPlay.ended = m.ended := rfl
@[simp] theorem Media.doPlay_paused (m : Media) : m.doPlay.paused = false := rfl

@[simp] theorem Media.setTime_srcLoaded (m : Media) (t : ℚ) : (m.setTime t).srcLoaded = m.srcLoaded := rfl
@[simp] theorem Media.setTime_readyState (m : Media) (t : ℚ) : (m.setTime t).readyState = m.readyState := rfl
@[simp] theorem Media.setTime_currentTime (m : Media) (t : ℚ) : (m.setTime t).currentTime = t := rfl
@[simp] theorem Media.setTime_ended (m : Media) (t : ℚ) : (m.setTime t).ended = false := rfl
@[simp] theorem Media.setTime_paused (m : Media) (t : ℚ) : (m.setTime t).paused = m.paused := rfl

/-- Lemma: `pauseExpectedly` only touches the two media paused flags and the two
expecting-pause flags; all other controller fields survive. -/
theorem pauseExpectedly_fields (s : AV) (pp ps : Bool) :
    (pauseExpectedly s pp ps).s.userPaused = s.userPaused ∧
    (pauseExpectedly s pp ps).s.userSeeking = s.userSeeking ∧
    (pauseExpectedly s pp ps).s.reconciliationState = s.reconciliationState ∧
    (pauseExpectedly s pp ps).s.primary.srcLoaded = s.primary.srcLoaded ∧
    (pauseExpectedly s pp ps).s.primary.readyState = s.primary.readyState ∧
    (pauseExpectedly s pp ps).s.primary.currentTime = s.primary.currentTime ∧
    (pauseExpectedly s pp ps).s.primary.ended = s.primary.ended ∧
    (pauseExpectedly s pp ps).s.secondary.srcLoaded = s.secondary.srcLoaded ∧
    (pauseExpectedly s pp ps).s.secondary.readyState = s.secondary.readyState := by
  unfold pauseExpectedly
  dsimp only
  split <;> split <;> simp

/-- Lemma: `syncCurrentTime` only touches the secondary's position. -/
theorem syncCurrentTime_fields (s : AV) :
    (syncCurrentTime s).1.userPaused = s.userPaused ∧
    (syncCurrentTime s).1.userSeeking = s.userSeeking ∧
    (syncCurrentTime s).1.reconciliationState = s.reconciliationState ∧
    (syncCurrentTime s).1.primary = s.primary ∧
    (syncCurrentTime s).1.secondary.srcLoaded = s.secondary.srcLoaded ∧
    (syncCurrentTime s).1.secondary.readyState = s.secondary.readyState := by
  unfold syncCurrentTime
  split <;> simp

/-! ## Loop-invariant lemmas -/

theorem iterNotReady_cont (s2 : AV) (ae : List Cmd) :
    (iterNotReady s2 ae).cont = true := rfl

theorem iterNotReady_evs (s2 : AV) (ae : List Cmd) :
    (iterNotReady s2 ae).evs = [] := rfl

/-- The not-ready branch only touches paused flags, expecting-pause flags
and (via nothing at all) no controller bookkeeping. -/
theorem iterNotReady_fields (s2 : AV) (ae : List Cmd) :
    (iterNotReady s2 ae).s.userPaused = s2.userPaused ∧
    (iterNotReady s2 ae).s.userSeeking = s2.userSeeking ∧
    (iterNotReady s2 ae).s.reconciliationState = s2.reconciliationState ∧
    (iterNotReady s2 ae).s.primary.srcLoaded = s2.primary.srcLoaded ∧
    (iterNotReady s2 ae).s.secondary.srcLoaded = s2.secondary.srcLoaded := by
  unfold iterNotReady
  dsimp only
  by_cases hp : s2.primary.readyState < HAVE_FUTURE_DATA
  · rw [if_pos hp]
    have hP := pauseExpectedly_fields s2 true false
    by_cases hs : s2.secondary.srcLoaded = true
        ∧ s2.secondary.readyState < HAVE_FUTURE_DATA
    · rw [if_pos hs]
      have hQ := pauseExpectedly_fields (pauseExpectedly s2 true false).s false true
      exact ⟨by rw [hQ.1, hP.1], by rw [hQ.2.1, hP.2.1],
        by rw [hQ.2.2.1, hP.2.2.1], by rw [hQ.2.2.2.1, hP.2.2.2.1],
        by rw [hQ.2.2.2.2.2.2.2.1, hP.2.2.2.2.2.2.2.1]⟩
    · rw [if_neg hs]
      refine ⟨hP.1, hP.2.1, hP.2.2.1, hP.2.2.2.1, ?_⟩
      show ((pauseExpectedly s2 true false).s.secondary.doPlay).srcLoaded
          = s2.secondary.srcLoaded
      rw [Media.doPlay_srcLoaded, hP.2.2.2.2.2.2.2.1]
  · rw [if_neg hp]
    by_cases hs : s2.secondary.srcLoaded = true
        ∧ s2.secondary.readyState < HAVE_FUTURE_DATA
    · rw [if_pos hs]
      have hQ := pauseExpectedly_fields
        { s2 with primary := s2.primary.doPlay } false true
      exact ⟨hQ.1, hQ.2.1, hQ.2.2.1,
        by rw [hQ.2.2.2.1]; exact Media.doPlay_srcLoaded s2.primary,
        hQ.2.2.2.2.2.2.2.1⟩
    · rw [if_neg hs]
      exact ⟨rfl, rfl, rfl, Media.doPlay_srcLoaded s2.primary,
        Media.doPlay_srcLoaded s2.secondary⟩

/-- When the primary's readiness is below `HAVE_FUTURE_DATA`, the
desired-playing branch always reaches a `continue`, emits no event, and
leaves `userPaused`, `userSeeking`, `srcLoaded` and the engine state
unchanged. -/
theorem iterPlayBranch_stuck (s : AV)
    (hr : s.primary.readyState < HAVE_FUTURE_DATA) :
    (iterPlayBranch s).cont = true ∧ (iterPlayBranch s).evs = [] ∧
    (iterPlayBranch s).s.userPaused = s.userPaused ∧
    (iterPlayBranch s).s.userSeeking = s.userSeeking ∧
    (iterPlayBranch s).s.primary.srcLoaded = s.primary.srcLoaded ∧
    (iterPlayBranch s).s.reconciliationState = s.reconciliationState := by
  unfold iterPlayBranch
  dsimp only
  have hAE :
      (if s.primary.ended = true then
        ({ s with primary := s.primary.setTime 0 }, [Cmd.primarySetTime 0])
      else (s, ([] : List Cmd))).1.userPaused = s.userPaused ∧
      (if s.primary.ended = true then
        ({ s with primary := s.primary.setTime 0 }, [Cmd.primarySetTime 0])
      else (s, ([] : List Cmd))).1.userSeeking = s.userSeeking ∧
      (if s.primary.ended = true then
        ({ s with primary := s.primary.setTime 0 }, [Cmd.primarySetTime 0])
      else (s, ([] : List Cmd))).1.primary.srcLoaded = s.primary.srcLoaded ∧
      (if s.primary.ended = true then
        ({ s with primary := s.primary.setTime 0 }, [Cmd.primarySetTime 0])
      else (s, ([] : List Cmd))).1.primary.readyState = s.primary.readyState ∧
      (if s.primary.ended = true then
        ({ s with primary := s.primary.setTime 0 }, [Cmd.primarySetTime 0])
      else (s, ([] : List Cmd))).1.reconciliationState
        = s.reconciliationState := by
    split <;> simp
  set ae := (if s.primary.ended = true then
        ({ s with primary := s.primary.setTime 0 }, [Cmd.primarySetTime 0])
      else (s, ([] : List Cmd))) with hae
  obtain ⟨hAE1, hAE2, hAE3, hAE4, hAE5⟩ := hAE
  have hS := syncCurrentTime_fields ae.1
  by_cases hb : (syncCurrentTime ae.1).2.2 = true
  · rw [if_pos hb]
    exact ⟨rfl, rfl, by rw [hS.1, hAE1], by rw [hS.2.1, hAE2],
      by rw [hS.2.2.2.1, hAE3], by rw [hS.2.2.1, hAE5]⟩
  · rw [if_neg hb]
    have hpnr : ae.1.primary.readyState < HAVE_FUTURE_DATA := by
      rw [hAE4]; exact hr
    rw [if_pos (Or.inl hpnr)]
    have hF := iterNotReady_fields ae.1 ae.2
    exact ⟨iterNotReady_cont _ _, iterNotReady_evs _ _,
      by rw [hF.1, hAE1], by rw [hF.2.1, hAE2],
      by rw [hF.2.2.2.1, hAE3], by rw [hF.2.2.1, hAE5]⟩

/-- When playback is desired, the primary is loaded, and the primary's
readiness is below `HAVE_FUTURE_DATA`, one loop iteration always reaches a
`continue`: it emits no event and leaves `userPaused`, `userSeeking`,
`reconciliationState` and the primary's `srcLoaded` unchanged. -/
theorem reconcileIter_stuck (s : AV)
    (hup : s.userPaused = false) (hus : s.userSeeking = false)
    (hl : s.primary.srcLoaded = true)
    (hr : s.primary.readyState < HAVE_FUTURE_DATA) :
    (reconcileIter s).cont = true ∧ (reconcileIter s).evs = [] ∧
    (reconcileIter s).s.userPaused = false ∧
    (reconcileIter s).s.userSeeking = false ∧
    (reconcileIter s).s.primary.srcLoaded = true ∧
    (reconcileIter s).s.reconciliationState = s.reconciliationState := by
  unfold reconcileIter
  rw [if_neg (by simp [hup, hus]), if_neg (by simp [hl])]
  have h := iterPlayBranch_stuck s hr
  exact ⟨h.1, h.2.1, by rw [h.2.2.1, hup], by rw [h.2.2.2.1, hus],
    by rw [h.2.2.2.2.1, hl], h.2.2.2.2.2⟩

/-- Under an environment that keeps the primary's `srcLoaded` unchanged and
its readiness below `HAVE_FUTURE_DATA`, the loop runs every remaining
command iteration, then executes the cap exit: `userPaused` is forced true
(one `playbackchange`), the state becomes FAILED (one
`reconciliationstatechange`), and the exit itself issues no command. -/
theorem reconcileLoop_stuck (env : Env)
    (HEload : ∀ n m, ((env.step n m).1).srcLoaded = (m.1).srcLoaded)
    (HEready : ∀ n m, ((env.step n m).1).readyState < HAVE_FUTURE_DATA) :
    ∀ fuel attempts s, attempts + fuel = MAX_RECONCILE_ATTEMPTS →
      s.userPaused = false → s.userSeeking = false →
      s.primary.srcLoaded = true →
      s.primary.readyState < HAVE_FUTURE_DATA →
      s.reconciliationState = ReconciliationState.RUNNING →
      (reconcileLoop env fuel attempts s).evs =
        [Ev.playbackchange,
         Ev.reconciliationstatechange ReconciliationState.FAILED] ∧
      (reconcileLoop env fuel attempts s).iters = MAX_RECONCILE_ATTEMPTS ∧
      (reconcileLoop env fuel attempts s).s.userPaused = true ∧
      (reconcileLoop env fuel attempts s).s.reconciliationState =
        ReconciliationState.FAILED := by
  intro fuel
  induction fuel with
  | zero =>
    intro attempts s hcap hup hus hl hr hrun
    have hA : attempts = MAX_RECONCILE_ATTEMPTS := by omega
    rw [reconcileLoop, if_pos hA]
    unfold failExit setUserPaused setReconciliationState
    simp [hup, hrun, hA]
  | succ fuel ih =>
    intro attempts s hcap hup hus hl hr hrun
    have hA : ¬ attempts = MAX_RECONCILE_ATTEMPTS := by omega
    have hit := reconcileIter_stuck s hup hus hl hr
    rw [reconcileLoop, if_neg hA, if_pos hit.1]
    have hrest := ih (attempts + 1) (envStep env attempts (reconcileIter s).s)
      (by omega)
      (by simp [envStep]; exact hit.2.2.1)
      (by simp [envStep]; exact hit.2.2.2.1)
      (by simp only [envStep]; rw [HEload]; exact hit.2.2.2.2.1)
      (by simp only [envStep]; exact HEready _ _)
      (by simp [envStep]; rw [hit.2.2.2.2.2, hrun])
    refine ⟨?_, ?_, ?_, ?_⟩
    · show (reconcileIter s).evs ++ _ = _
      rw [hit.2.1, hrest.1]; rfl
    · exact hrest.2.1
    · exact hrest.2.2.1
    · exact hrest.2.2.2

/-- Full pass characterization when readiness never suffices: the trigger
emits RUNNING, the loop exhausts all `MAX_RECONCILE_ATTEMPTS` iterations,
the cap exit forces `userPaused` and emits FAILED, and the pass's final
bookkeeping (line 196) then assigns IDLE, emitting one more
`reconciliationstatechange`. -/
theorem triggerReconcile_stuck (env : Env)
    (HEload : ∀ n m, ((env.step n m).1).srcLoaded = (m.1).srcLoaded)
    (HEready : ∀ n m, ((env.step n m).1).readyState < HAVE_FUTURE_DATA)
    (s : AV)
    (hup : s.userPaused = false) (hus : s.userSeeking = false)
    (hl : s.primary.srcLoaded = true)
    (hr : s.primary.readyState < HAVE_FUTURE_DATA)
    (hnr : ¬ s.reconciliationState = ReconciliationState.RUNNING) :
    (triggerReconcile env s).evs =
      [Ev.reconciliationstatechange ReconciliationState.RUNNING,
       Ev.playbackchange,
       Ev.reconciliationstatechange ReconciliationState.FAILED,
       Ev.reconciliationstatechange ReconciliationState.IDLE] ∧
    (triggerReconcile env s).iters = MAX_RECONCILE_ATTEMPTS ∧
    (triggerReconcile env s).s.userPaused = true ∧
    (triggerReconcile env s).s.reconciliationState =
      ReconciliationState.IDLE := by
  have hloop := reconcileLoop_stuck env HEload HEready
    MAX_RECONCILE_ATTEMPTS 0
    { s with reconciliationState := ReconciliationState.RUNNING }
    (by omega) (by simpa using hup) (by simpa using hus)
    (by simpa using hl) (by simpa using hr) rfl
  obtain ⟨he, hi, hu, hf⟩ := hloop
  rw [triggerReconcile, if_neg hnr]
  simp only [setReconciliationState]
  rw [if_neg hnr, he, hi, hu]
  simp [hf]

/-- With `userPaused = true` an iteration takes the pause branch, which
never writes `userPaused`. -/
theorem reconcileIter_userPaused_true (s : AV) (h : s.userPaused = true) :
    (reconcileIter s).s.userPaused = true ∧ (reconcileIter s).evs = [] := by
  unfold reconcileIter
  rw [if_pos (Or.inl h)]
  refine ⟨?_, rfl⟩
  show (pauseExpectedly s true true).s.userPaused = true
  rw [(pauseExpectedly_fields s true true).1]
  exact h

/-- The loop never clears a desired pause: every write to `userPaused`
inside `reconcile` assigns `true`. -/
theorem reconcileLoop_userPaused_true (env : Env) :
    ∀ fuel attempts s, s.userPaused = true →
      (reconcileLoop env fuel attempts s).s.userPaused = true := by
  intro fuel
  induction fuel with
  | zero =>
    intro attempts s h
    rw [reconcileLoop]
    split
    · simp [failExit, setUserPaused, setReconciliationState]
    · dsimp only
      split
      · exact (reconcileIter_userPaused_true s h).1
      · exact (reconcileIter_userPaused_true s h).1
  | succ fuel ih =>
    intro attempts s h
    rw [reconcileLoop]
    split
    · simp [failExit, setUserPaused, setReconciliationState]
    · dsimp only
      split
      · exact ih _ _ (by
          simp only [envStep]
          exact (reconcileIter_userPaused_true s h).1)
      · exact (reconcileIter_userPaused_true s h).1

/-- A pass started (or absorbed) from a state with `userPaused = true`
ends with `userPaused = true`. -/
theorem triggerReconcile_userPaused_true (env : Env) (s : AV)
    (h : s.userPaused = true) :
    (triggerReconcile env s).s.userPaused = true := by
  rw [triggerReconcile]
  split
  · exact h
  · simp only [setReconciliationState]
    exact reconcileLoop_userPaused_true env _ _ _ (by simpa using h)

/-- The public `pause()` path always leaves `userPaused = true`. -/
theorem pauseOp_userPaused (env : Env) (s : AV) :
    (pauseOp env s).s.userPaused = true := by
  unfold pauseOp
  dsimp only
  exact triggerReconcile_userPaused_true env _ (by simp [setUserPaused])

/-! ## Concrete fixtures for witnesses and counterexamples -/

/-- A loaded primary that is paused, at position 0, with no buffered data. -/
def mediaStuck : Media := Media.mk true true false 0 0

/-- An element with no source attached. -/
def mediaNone : Media := Media.mk false true false 0 0

/-- A loaded element that is playing with full readiness at position 0. -/
def mediaReady : Media := Media.mk true false false 4 0

/-- Playback desired, engine idle, primary loaded but never ready. -/
def avStuck : AV :=
  AV.mk mediaStuck mediaNone false false ReconciliationState.IDLE false false

/-- An environment in which the primary's readiness never improves (it is
clamped to `HAVE_NOTHING` at every suspension point). -/
def cappedEnv : Env := Env.mk fun _ m => ({ m.1 with readyState := 0 }, m.2)

/-- A controller state with a convergence pass in flight. -/
def avRunning : AV :=
  AV.mk mediaReady mediaNone false false ReconciliationState.RUNNING false false

/-! ## Claims -/

/-- C1 — Single-flight: in any state whose reconciliation state is RUNNING,
a further `reconcile()` trigger returns immediately: the state is untouched,
no event (in particular no RUNNING `reconciliationstatechange`) is emitted,
no command is issued and zero loop iterations run; likewise a
`currentTime` set in that state emits no event at all. -/
theorem single_flight_absorbs_triggers (env : Env) (s : AV) (t : ℚ)
    (h : s.reconciliationState = ReconciliationState.RUNNING) :
    triggerReconcile env s = LoopOut.mk s [] [] 0 ∧
    (setCurrentTimeOp env s t).iters = 0 ∧
    (setCurrentTimeOp env s t).evs = [] ∧
    Ev.reconciliationstatechange ReconciliationState.RUNNING ∉
      (setCurrentTimeOp env s t).evs := by
  have habs : triggerReconcile env s = LoopOut.mk s [] [] 0 := by
    rw [triggerReconcile, if_pos h]
  have hw : (setCurrentTimeWrite s t).1.reconciliationState
      = ReconciliationState.RUNNING := by
    unfold setCurrentTimeWrite
    split <;> simpa using h
  have habs2 : triggerReconcile env (setCurrentTimeWrite s t).1
      = LoopOut.mk (setCurrentTimeWrite s t).1 [] [] 0 := by
    rw [triggerReconcile, if_pos hw]
  refine ⟨habs, ?_, ?_, ?_⟩ <;> simp [setCurrentTimeOp, habs2]

theorem single_flight_absorbs_triggers_witness :
    triggerReconcile idEnv avRunning = LoopOut.mk avRunning [] [] 0 ∧
    (setCurrentTimeOp idEnv avRunning 3).evs = [] :=
  ⟨(single_flight_absorbs_triggers idEnv avRunning 3 rfl).1,
   (single_flight_absorbs_triggers idEnv avRunning 3 rfl).2.2.1⟩

/-- C2 — Failure bound: if the environment never lets the primary's
readiness reach `HAVE_FUTURE_DATA` (and keeps its source attached), a pass
started with playback desired performs exactly `MAX_RECONCILE_ATTEMPTS =
600` command iterations, then forces `userPaused = true` (one
`playbackchange`; the public `paused` getter turns true) and transitions to
FAILED, issuing nothing further; the pass is a total function, so no
exception escapes the loop. -/
theorem failure_bound_after_cap (env : Env)
    (HEload : ∀ n m, ((env.step n m).1).srcLoaded = (m.1).srcLoaded)
    (HEready : ∀ n m, ((env.step n m).1).readyState < HAVE_FUTURE_DATA)
    (s : AV)
    (hup : s.userPaused = false) (hus : s.userSeeking = false)
    (hl : s.primary.srcLoaded = true)
    (hr : s.primary.readyState < HAVE_FUTURE_DATA)
    (hnr : ¬ s.reconciliationState = ReconciliationState.RUNNING) :
    MAX_RECONCILE_ATTEMPTS = 600 ∧
    (triggerReconcile env s).iters = MAX_RECONCILE_ATTEMPTS ∧
    (triggerReconcile env s).s.userPaused = true ∧
    getPaused (triggerReconcile env s).s = true ∧
    (triggerReconcile env s).evs =
      [Ev.reconciliationstatechange ReconciliationState.RUNNING,
       Ev.playbackchange,
       Ev.reconciliationstatechange ReconciliationState.FAILED,
       Ev.reconciliationstatechange ReconciliationState.IDLE] := by
  have h := triggerReconcile_stuck env HEload HEready s hup hus hl hr hnr
  exact ⟨rfl, h.2.1, h.2.2.1, h.2.2.1, h.1⟩

theorem failure_bound_after_cap_witness :
    (triggerReconcile cappedEnv avStuck).iters = 600 ∧
    (triggerReconcile cappedEnv avStuck).s.userPaused = true ∧
    Ev.reconciliationstatechange ReconciliationState.FAILED ∈
      (triggerReconcile cappedEnv avStuck).evs := by
  have h := failure_bound_after_cap cappedEnv (fun _ _ => rfl)
    (by intro n m; show (0:Nat) < 3; omega) avStuck rfl rfl rfl (by decide) (by decide)
  exact ⟨h.2.1, h.2.2.1, by rw [h.2.2.2.2]; decide⟩

/-- C3 counterexample — the claim "after cap exhaustion the reconciliation
state remains FAILED until a new play()/seek" is false: in a concrete run
that exhausts all 600 attempts and emits the FAILED transition, the state
immediately after the pass (with no further call of any kind) is IDLE, not
FAILED, because line 196 assigns IDLE unconditionally after the loop. -/
theorem failed_not_terminal_counterexample :
    (triggerReconcile cappedEnv avStuck).iters = MAX_RECONCILE_ATTEMPTS ∧
    Ev.reconciliationstatechange ReconciliationState.FAILED ∈
      (triggerReconcile cappedEnv avStuck).evs ∧
    ¬ (triggerReconcile cappedEnv avStuck).s.reconciliationState
        = ReconciliationState.FAILED := by
  have h := triggerReconcile_stuck cappedEnv (fun _ _ => rfl)
    (by intro n m; show (0:Nat) < 3; omega) avStuck rfl rfl rfl (by decide) (by decide)
  refine ⟨h.2.1, by rw [h.1]; decide, by rw [h.2.2.2]; decide⟩

/-- C3 amended — after a pass exhausts the attempt cap it transitions to
FAILED (emitting the corresponding `reconciliationstatechange`), but the
pass's final bookkeeping then immediately assigns IDLE (line 196), emitting
a further `reconciliationstatechange`; the state that persists after the
pass is IDLE, so FAILED is observable only through the event, not as a
resting state. -/
theorem failed_is_transient (env : Env)
    (HEload : ∀ n m, ((env.step n m).1).srcLoaded = (m.1).srcLoaded)
    (HEready : ∀ n m, ((env.step n m).1).readyState < HAVE_FUTURE_DATA)
    (s : AV)
    (hup : s.userPaused = false) (hus : s.userSeeking = false)
    (hl : s.primary.srcLoaded = true)
    (hr : s.primary.readyState < HAVE_FUTURE_DATA)
    (hnr : ¬ s.reconciliationState = ReconciliationState.RUNNING) :
    Ev.reconciliationstatechange ReconciliationState.FAILED ∈
      (triggerReconcile env s).evs ∧
    (triggerReconcile env s).evs.getLast? =
      some (Ev.reconciliationstatechange ReconciliationState.IDLE) ∧
    (triggerReconcile env s).s.reconciliationState =
      ReconciliationState.IDLE := by
  have h := triggerReconcile_stuck env HEload HEready s hup hus hl hr hnr
  exact ⟨by rw [h.1]; decide, by rw [h.1]; decide, h.2.2.2⟩

theorem failed_is_transient_witness :
    Ev.reconciliationstatechange ReconciliationState.FAILED ∈
      (triggerReconcile cappedEnv avStuck).evs ∧
    (triggerReconcile cappedEnv avStuck).s.reconciliationState
      = ReconciliationState.IDLE := by
  have h := failed_is_transient cappedEnv (fun _ _ => rfl)
    (by intro n m; show (0:Nat) < 3; omega) avStuck rfl rfl rfl (by decide) (by decide)
  exact ⟨h.1, h.2.2⟩

/-- C4 — Event attribution: a pause notification arriving while the
resource's expecting-pause flag is set only clears that flag (no event, no
command, no other state change, and the public `pause()` path does not
run); an unflagged pause notification runs the public `pause()` path
exactly once, after which `userPaused` — and hence the public `paused`
getter — is true.  Both resources behave symmetrically. -/
theorem pause_event_attribution (env : Env) (s : AV) :
    (s.expectingPrimaryPause = true →
      onPrimaryPauseEvent env s =
        LoopOut.mk { s with expectingPrimaryPause := false } [] [] 0) ∧
    (s.expectingPrimaryPause = false →
      onPrimaryPauseEvent env s = pauseOp env s ∧
      (onPrimaryPauseEvent env s).s.userPaused = true ∧
      getPaused (onPrimaryPauseEvent env s).s = true) ∧
    (s.expectingSecondaryPause = true →
      onSecondaryPauseEvent env s =
        LoopOut.mk { s with expectingSecondaryPause := false } [] [] 0) ∧
    (s.expectingSecondaryPause = false →
      onSecondaryPauseEvent env s = pauseOp env s ∧
      (onSecondaryPauseEvent env s).s.userPaused = true ∧
      getPaused (onSecondaryPauseEvent env s).s = true) := by
  refine ⟨fun h => ?_, fun h => ?_, fun h => ?_, fun h => ?_⟩
  · rw [onPrimaryPauseEvent, if_pos h]
  · rw [onPrimaryPauseEvent, if_neg (by simp [h])]
    exact ⟨rfl, pauseOp_userPaused env s, pauseOp_userPaused env s⟩
  · rw [onSecondaryPauseEvent, if_pos h]
  · rw [onSecondaryPauseEvent, if_neg (by simp [h])]
    exact ⟨rfl, pauseOp_userPaused env s, pauseOp_userPaused env s⟩

theorem pause_event_attribution_witness :
    onPrimaryPauseEvent idEnv { avRunning with expectingPrimaryPause := true }
      = LoopOut.mk avRunning [] [] 0 ∧
    (onPrimaryPauseEvent idEnv avRunning).s.userPaused = true := by
  refine ⟨?_, ((pause_event_attribution idEnv avRunning).2.1 rfl).2.1⟩
  have h := (pause_event_attribution idEnv
    { avRunning with expectingPrimaryPause := true }).1 rfl
  rw [h]; rfl

/-- C10 — An `ended` notification from the primary forces the desired state
to paused: `userPaused` becomes true (so the public `paused` getter returns
true without any caller having invoked `pause()`), and a `playbackchange`
event is emitted exactly when playback was desired at that moment. -/
theorem ended_forces_user_pause (s : AV) :
    (onPrimaryEnded s).1.userPaused = true ∧
    getPaused (onPrimaryEnded s).1 = true ∧
    (s.userPaused = false → (onPrimaryEnded s).2 = [Ev.playbackchange]) ∧
    (s.userPaused = true → (onPrimaryEnded s).2 = []) := by
  refine ⟨rfl, rfl, fun h => ?_, fun h => ?_⟩ <;>
    simp [onPrimaryEnded, setUserPaused, h]

theorem ended_forces_user_pause_witness :
    (onPrimaryEnded avStuck).1.userPaused = true ∧
    (onPrimaryEnded avStuck).2 = [Ev.playbackchange] :=
  ⟨(ended_forces_user_pause avStuck).1,
   (ended_forces_user_pause avStuck).2.2.1 rfl⟩

/-- C8 — Drift tolerance: with a secondary source loaded, `syncCurrentTime`
overwrites the secondary's position with the primary's exactly when the
absolute drift exceeds `0.05` seconds; at drift `0.05` or below it does
nothing at all (state, commands and return flag untouched). -/
theorem drift_tolerance_sync (s : AV) (h : s.secondary.srcLoaded = true) :
    (tolerance < |s.primary.currentTime - s.secondary.currentTime| →
      (syncCurrentTime s).1.secondary.currentTime = s.primary.currentTime ∧
      (syncCurrentTime s).2.1 = [Cmd.secondarySetTime s.primary.currentTime] ∧
      (syncCurrentTime s).2.2 = true) ∧
    (|s.primary.currentTime - s.secondary.currentTime| ≤ tolerance →
      syncCurrentTime s = (s, [], false)) := by
  constructor
  · intro hd
    rw [syncCurrentTime, if_pos ⟨h, by rw [ratAbs_eq_abs]; exact hd⟩]
    exact ⟨rfl, rfl, rfl⟩
  · intro hd
    rw [syncCurrentTime, if_neg ?_]
    rintro ⟨-, hlt⟩
    rw [ratAbs_eq_abs] at hlt
    exact absurd hd (not_le.mpr hlt)

/-- Secondary loaded, drifted a full second from the primary. -/
def avDrift : AV :=
  AV.mk (Media.mk true false false 4 1) (Media.mk true false false 4 0)
    false false ReconciliationState.IDLE false false

theorem drift_tolerance_sync_witness :
    tolerance < |avDrift.primary.currentTime - avDrift.secondary.currentTime| ∧
    (syncCurrentTime avDrift).1.secondary.currentTime
      = avDrift.primary.currentTime ∧
    (syncCurrentTime avDrift).2.2 = true := by
  have habs : tolerance
      < |avDrift.primary.currentTime - avDrift.secondary.currentTime| := by
    show tolerance < |(1:ℚ) - (0:ℚ)|
    rw [tolerance_eq]
    norm_num
  have h := (drift_tolerance_sync avDrift rfl).1 habs
  exact ⟨habs, h.1, h.2.2⟩

/-- C9 — `setSource` precondition: a call with a truthy secondary but falsy
primary fails synchronously with `InvalidSourceConfiguration`, mutating
nothing (the error branch returns before either `setSrc`); a call meeting
the precondition succeeds, and a falsy value for a resource clears that
resource's source (a truthy one attaches it and issues a `load()`). -/
theorem set_source_precondition (s : AV) (p sc : Option String) :
    (truthy p = false → truthy sc = true →
      setSourceOp s p sc
        = Except.error SetSourceError.InvalidSourceConfiguration) ∧
    (truthy p = true ∨ truthy sc = false →
      ∃ r, setSourceOp s p sc = Except.ok r ∧
        r.1.primary.srcLoaded = truthy p ∧
        r.1.secondary.srcLoaded = truthy sc ∧
        r.1.userPaused = s.userPaused ∧
        (truthy p = true → Cmd.primaryLoad ∈ r.2) ∧
        (truthy sc = false → Cmd.secondaryLoad ∉ r.2)) := by
  constructor
  · intro hp hsc
    rw [setSourceOp, if_neg (by simp [hp, hsc])]
  · intro hok
    rw [setSourceOp, if_pos hok]
    refine ⟨_, rfl, ?_, ?_, rfl, ?_, ?_⟩
    · unfold Media.setSrc
      rcases Bool.eq_false_or_eq_true (truthy p) with h | h <;> simp [h]
    · unfold Media.setSrc
      rcases Bool.eq_false_or_eq_true (truthy sc) with h | h <;> simp [h]
    · intro h
      unfold Media.setSrc
      rcases Bool.eq_false_or_eq_true (truthy sc) with h2 | h2 <;> simp [h, h2]
    · intro h
      unfold Media.setSrc
      rcases Bool.eq_false_or_eq_true (truthy p) with h2 | h2 <;> simp [h, h2]

theorem set_source_precondition_witness :
    setSourceOp avStuck none (some "x")
      = Except.error SetSourceError.InvalidSourceConfiguration ∧
    ∃ r, setSourceOp avStuck (some "a.mp4") none = Except.ok r ∧
      r.1.primary.srcLoaded = true ∧ r.1.secondary.srcLoaded = false := by
  constructor
  · exact (set_source_precondition avStuck none (some "x")).1 rfl (by decide)
  · obtain ⟨r, hr, h1, h2, -⟩ :=
      (set_source_precondition avStuck (some "a.mp4") none).2
        (Or.inl (by decide))
    exact ⟨r, hr, by rw [h1]; decide, by rw [h2]; decide⟩

/-! ## Shape lemmas for the not-ready branch and the pause branch -/

theorem pauseExpectedly_primary_only (s : AV) :
    pauseExpectedly s true false =
      if s.primary.paused = false then
        PE.mk { s with expectingPrimaryPause := true,
                       primary := s.primary.doPause } [Cmd.primaryPause] true
      else PE.mk s [] false := by
  unfold pauseExpectedly
  dsimp only
  split_ifs with h1 h2 h3 <;> simp_all

theorem pauseExpectedly_secondary_only (s : AV) :
    pauseExpectedly s false true =
      if s.secondary.srcLoaded = true ∧ s.secondary.paused = false then
        PE.mk { s with expectingSecondaryPause := true,
                       secondary := s.secondary.doPause } [Cmd.secondaryPause] true
      else PE.mk s [] false := by
  unfold pauseExpectedly
  dsimp only
  split_ifs with h1 h2 h3 <;> simp_all

theorem pauseExpectedly_no_load (u : AV) (pp ps : Bool) :
    Cmd.primaryLoad ∉ (pauseExpectedly u pp ps).cmds ∧
    Cmd.secondaryLoad ∉ (pauseExpectedly u pp ps).cmds := by
  unfold pauseExpectedly
  dsimp only
  split_ifs <;> simp

theorem syncCurrentTime_no_load (u : AV) :
    Cmd.primaryLoad ∉ (syncCurrentTime u).2.1 ∧
    Cmd.secondaryLoad ∉ (syncCurrentTime u).2.1 := by
  unfold syncCurrentTime
  split_ifs <;> simp

theorem iterPaused_no_load (s : AV) :
    Cmd.primaryLoad ∉ (iterPaused s).cmds ∧
    Cmd.secondaryLoad ∉ (iterPaused s).cmds :=
  pauseExpectedly_no_load s true true

theorem iterNotReady_no_load (s2 : AV) (ae : List Cmd)
    (h1 : Cmd.primaryLoad ∉ ae) (h2 : Cmd.secondaryLoad ∉ ae) :
    Cmd.primaryLoad ∉ (iterNotReady s2 ae).cmds ∧
    Cmd.secondaryLoad ∉ (iterNotReady s2 ae).cmds := by
  unfold iterNotReady
  dsimp only
  refine ⟨?_, ?_⟩ <;> simp only [List.mem_append, not_or]
  · refine ⟨⟨h1, ?_⟩, ?_⟩
    · split
      · exact (pauseExpectedly_no_load s2 true false).1
      · simp
    · split
      · exact (pauseExpectedly_no_load _ false true).1
      · simp
  · refine ⟨⟨h2, ?_⟩, ?_⟩
    · split
      · exact (pauseExpectedly_no_load s2 true false).2
      · simp
    · split
      · exact (pauseExpectedly_no_load _ false true).2
      · simp

theorem iterFinal_no_load (s2 : AV) (ae : List Cmd)
    (h1 : Cmd.primaryLoad ∉ ae) (h2 : Cmd.secondaryLoad ∉ ae) :
    Cmd.primaryLoad ∉ (iterFinal s2 ae).cmds ∧
    Cmd.secondaryLoad ∉ (iterFinal s2 ae).cmds := by
  unfold iterFinal
  dsimp only
  refine ⟨?_, ?_⟩ <;> simp only [List.mem_append, not_or]
  · exact ⟨⟨h1, by split_ifs <;> simp⟩, by split_ifs <;> simp⟩
  · exact ⟨⟨h2, by split_ifs <;> simp⟩, by split_ifs <;> simp⟩

theorem iterPlayBranch_no_load (s : AV) :
    Cmd.primaryLoad ∉ (iterPlayBranch s).cmds ∧
    Cmd.secondaryLoad ∉ (iterPlayBranch s).cmds := by
  unfold iterPlayBranch
  dsimp only
  set ae := (if s.primary.ended = true then
        ({ s with primary := s.primary.setTime 0 }, [Cmd.primarySetTime 0])
      else (s, ([] : List Cmd))) with hae
  have ha1 : Cmd.primaryLoad ∉ ae.2 := by rw [hae]; split <;> simp
  have ha2 : Cmd.secondaryLoad ∉ ae.2 := by rw [hae]; split <;> simp
  by_cases hb : (syncCurrentTime ae.1).2.2 = true
  · rw [if_pos hb]
    refine ⟨?_, ?_⟩ <;> simp only [List.mem_append, not_or]
    · exact ⟨ha1, (syncCurrentTime_no_load ae.1).1⟩
    · exact ⟨ha2, (syncCurrentTime_no_load ae.1).2⟩
  · rw [if_neg hb]
    split
    · exact iterNotReady_no_load ae.1 ae.2 ha1 ha2
    · exact iterFinal_no_load ae.1 ae.2 ha1 ha2

/-- The convergence loop can issue pause, play and position commands but
never a `load()`: one iteration's command list is free of load commands. -/
theorem reconcileIter_no_load (s : AV) :
    Cmd.primaryLoad ∉ (reconcileIter s).cmds ∧
    Cmd.secondaryLoad ∉ (reconcileIter s).cmds := by
  unfold reconcileIter
  split
  · exact iterPaused_no_load s
  · split
    · constructor <;> simp
    · exact iterPlayBranch_no_load s

/-- No run of the loop ever issues a `load()` command. -/
theorem reconcileLoop_no_load (env : Env) :
    ∀ fuel attempts s,
      Cmd.primaryLoad ∉ (reconcileLoop env fuel attempts s).cmds ∧
      Cmd.secondaryLoad ∉ (reconcileLoop env fuel attempts s).cmds := by
  intro fuel
  induction fuel with
  | zero =>
    intro attempts s
    rw [reconcileLoop]
    split
    · simp [failExit]
    · dsimp only
      split
      · exact reconcileIter_no_load s
      · exact reconcileIter_no_load s
  | succ fuel ih =>
    intro attempts s
    rw [reconcileLoop]
    split
    · simp [failExit]
    · dsimp only
      split
      · have h1 := reconcileIter_no_load s
        have h2 := ih (attempts + 1) (envStep env attempts (reconcileIter s).s)
        constructor
        · show Cmd.primaryLoad ∉ (reconcileIter s).cmds ++ _
          simp only [List.mem_append]
          rintro (h | h)
          · exact h1.1 h
          · exact h2.1 h
        · show Cmd.secondaryLoad ∉ (reconcileIter s).cmds ++ _
          simp only [List.mem_append]
          rintro (h | h)
          · exact h1.2 h
          · exact h2.2 h
      · exact reconcileIter_no_load s

/-- No convergence pass — whatever the environment and starting state —
ever issues a `load()` command to either element. -/
theorem triggerReconcile_no_load (env : Env) (s : AV) :
    Cmd.primaryLoad ∉ (triggerReconcile env s).cmds ∧
    Cmd.secondaryLoad ∉ (triggerReconcile env s).cmds := by
  rw [triggerReconcile]
  split
  · simp
  · exact reconcileLoop_no_load env _ _ _

/-! ## Branch characterizations: not-ready commands, stable break states -/

/-- Exact commands of the not-ready branch: the resource that is ready is
played, the under-ready one is expectedly paused (when not already paused);
an absent secondary is played unconditionally. -/
theorem iterNotReady_cmds (s2 : AV) (ae : List Cmd) :
    (iterNotReady s2 ae).cmds = ae ++
      (if s2.primary.readyState < HAVE_FUTURE_DATA then
         (if s2.primary.paused = false then [Cmd.primaryPause] else [])
       else [Cmd.primaryPlay]) ++
      (if s2.secondary.srcLoaded = true
          ∧ s2.secondary.readyState < HAVE_FUTURE_DATA then
         (if s2.secondary.paused = false then [Cmd.secondaryPause] else [])
       else [Cmd.secondaryPlay]) := by
  unfold iterNotReady
  dsimp only
  by_cases hp : s2.primary.readyState < HAVE_FUTURE_DATA <;>
    by_cases hs : s2.secondary.srcLoaded = true
        ∧ s2.secondary.readyState < HAVE_FUTURE_DATA <;>
      by_cases hpp : s2.primary.paused = false <;>
        by_cases hsp : s2.secondary.paused = false <;>
          simp [hp, hs, hpp, hsp, pauseExpectedly_primary_only,
            pauseExpectedly_secondary_only]

/-- When both resources are already paused (or the secondary is absent or
paused), the pause branch alters nothing and the iteration breaks. -/
theorem iterPaused_noop (s : AV) (hp : s.primary.paused = true)
    (hs : ¬(s.secondary.srcLoaded = true ∧ s.secondary.paused = false)) :
    iterPaused s = IterOut.mk s [] [] false := by
  unfold iterPaused pauseExpectedly
  dsimp only
  rw [if_neg (show ¬(s.primary.paused = false ∧ true = true) by simp [hp])]
  dsimp only
  rw [if_neg (show ¬(s.secondary.srcLoaded = true ∧ s.secondary.paused = false
      ∧ true = true) by simpa using hs)]

/-- With the primary still playing and no playing secondary, the pause
branch expectedly pauses the primary and continues. -/
theorem iterPaused_pausesPrimary (s : AV) (hp : s.primary.paused = false)
    (hs : s.secondary.srcLoaded = false) :
    iterPaused s = IterOut.mk
      { s with expectingPrimaryPause := true, primary := s.primary.doPause }
      [] [Cmd.primaryPause] true := by
  unfold iterPaused pauseExpectedly
  dsimp only
  rw [if_pos (show s.primary.paused = false ∧ true = true from ⟨hp, rfl⟩)]
  dsimp only
  rw [if_neg (show ¬(s.secondary.srcLoaded = true ∧ s.secondary.paused = false
      ∧ true = true) by simp [hs])]

/-- When the primary is playing and the secondary is absent or already
playing, the final play step does nothing and the iteration breaks. -/
theorem iterFinal_noop (s2 : AV) (ae : List Cmd)
    (hp : s2.primary.paused = false)
    (hs : ¬(s2.secondary.srcLoaded = true ∧ s2.secondary.paused = true)) :
    iterFinal s2 ae = IterOut.mk s2 [] ae false := by
  unfold iterFinal
  dsimp only
  rw [if_neg (show ¬ s2.primary.paused = true by simp [hp])]
  dsimp only
  rw [if_neg (show ¬(s2.secondary.srcLoaded = true ∧ s2.secondary.paused = true)
      from hs)]
  simp

/-- A stable playing state (desired playing, primary loaded, not ended,
ready, playing; secondary absent) makes the iteration a breaking no-op. -/
theorem reconcileIter_stablePlay (s : AV)
    (h1 : s.userPaused = false) (h2 : s.userSeeking = false)
    (h3 : s.primary.srcLoaded = true) (h4 : s.primary.ended = false)
    (h5 : ¬ s.primary.readyState < HAVE_FUTURE_DATA)
    (h6 : s.primary.paused = false) (h7 : s.secondary.srcLoaded = false) :
    reconcileIter s = IterOut.mk s [] [] false := by
  unfold reconcileIter
  rw [if_neg (show ¬(s.userPaused = true ∨ s.userSeeking = true)
        by simp [h1, h2]),
      if_neg (show ¬ s.primary.srcLoaded = false by simp [h3])]
  unfold iterPlayBranch
  dsimp only
  rw [if_neg (show ¬ s.primary.ended = true by simp [h4])]
  dsimp only
  rw [syncCurrentTime,
      if_neg (show ¬(s.secondary.srcLoaded = true ∧ tolerance
        < ratAbs (s.primary.currentTime - s.secondary.currentTime))
        by simp [h7])]
  dsimp only
  rw [if_neg (show ¬(false = true) by simp)]
  rw [if_neg (show ¬(s.primary.readyState < HAVE_FUTURE_DATA
        ∨ (s.secondary.srcLoaded = true
           ∧ s.secondary.readyState < HAVE_FUTURE_DATA)) by simp [h5, h7])]
  exact iterFinal_noop s [] h6 (by simp [h7])

/-- With pause desired and everything already paused (secondary absent or
paused), the iteration is a breaking no-op. -/
theorem reconcileIter_allPaused (s : AV)
    (h1 : s.userPaused = true) (hp : s.primary.paused = true)
    (hs : ¬(s.secondary.srcLoaded = true ∧ s.secondary.paused = false)) :
    reconcileIter s = IterOut.mk s [] [] false := by
  unfold reconcileIter
  rw [if_pos (Or.inl h1), iterPaused_noop s hp hs]

/-- A loop whose first iteration breaks without changing anything returns
immediately: no events, no commands, zero iterations. -/
theorem reconcileLoop_break (env : Env) (s : AV)
    (h : reconcileIter s = IterOut.mk s [] [] false) :
    reconcileLoop env MAX_RECONCILE_ATTEMPTS 0 s = LoopOut.mk s [] [] 0 := by
  rw [reconcileLoop, if_neg (by decide)]
  dsimp only
  rw [h]
  simp

/-- A pass from IDLE whose first loop iteration breaks without changes:
the only events are the RUNNING and IDLE transitions. -/
theorem triggerReconcile_break (env : Env) (s : AV)
    (hrs : s.reconciliationState = ReconciliationState.IDLE)
    (h : reconcileIter { s with reconciliationState := ReconciliationState.RUNNING }
        = IterOut.mk { s with reconciliationState := ReconciliationState.RUNNING }
            [] [] false) :
    triggerReconcile env s = LoopOut.mk s
      [Ev.reconciliationstatechange ReconciliationState.RUNNING,
       Ev.reconciliationstatechange ReconciliationState.IDLE] [] 0 := by
  obtain ⟨p, sec, up, us, rs, f1, f2⟩ := s
  dsimp only at hrs h ⊢
  subst hrs
  rw [triggerReconcile]
  rw [if_neg (by intro hc; cases hc)]
  simp only [setReconciliationState]
  dsimp only
  simp only [reconcileLoop_break env _ h]
  simp

/-- Route lemma: with playback desired, primary loaded and not ended, no
drift correction firing, and at least one resource under-ready, the
iteration is exactly the not-ready branch (with no earlier commands). -/
theorem reconcileIter_notReady_route (s : AV)
    (hup : s.userPaused = false) (hus : s.userSeeking = false)
    (hl : s.primary.srcLoaded = true) (he : s.primary.ended = false)
    (hsync : ¬(s.secondary.srcLoaded = true
      ∧ tolerance < ratAbs (s.primary.currentTime - s.secondary.currentTime)))
    (hnr : s.primary.readyState < HAVE_FUTURE_DATA
      ∨ (s.secondary.srcLoaded = true
         ∧ s.secondary.readyState < HAVE_FUTURE_DATA)) :
    reconcileIter s = iterNotReady s [] := by
  unfold reconcileIter
  rw [if_neg (show ¬(s.userPaused = true ∨ s.userSeeking = true)
        by simp [hup, hus]),
      if_neg (show ¬ s.primary.srcLoaded = false by simp [hl])]
  unfold iterPlayBranch
  dsimp only
  rw [if_neg (show ¬ s.primary.ended = true by simp [he])]
  dsimp only
  rw [syncCurrentTime, if_neg hsync]
  dsimp only
  rw [if_neg (show ¬(false = true) by simp), if_pos hnr]

/-- Primary fully ready and playing; secondary loaded, playing, in sync,
but with no buffered data at all. -/
def avSecondaryStalled : AV :=
  AV.mk (Media.mk true false false 4 0) (Media.mk true false false 0 0)
    false false ReconciliationState.IDLE false false

/-- An environment in which the secondary's readiness never improves. -/
def stalledSecEnv : Env :=
  Env.mk fun _ m => (m.1, { m.2 with readyState := 0 })

/-- C5 counterexample — the claim "the engine pauses whichever resource IS
ready, and after about 20 consecutive not-ready iterations force-reloads
the under-ready resource(s)" is false: at a state where the primary is the
ready resource and the secondary is under-ready, the iteration issues
`play()` to the primary (no pause), and a full pass never issues any
reload/`load()` command to either element. -/
theorem not_ready_pauses_ready_counterexample :
    HAVE_FUTURE_DATA ≤ avSecondaryStalled.primary.readyState ∧
    avSecondaryStalled.secondary.srcLoaded = true ∧
    avSecondaryStalled.secondary.readyState < HAVE_FUTURE_DATA ∧
    (reconcileIter avSecondaryStalled).cmds
      = [Cmd.primaryPlay, Cmd.secondaryPause] ∧
    Cmd.primaryPause ∉ (reconcileIter avSecondaryStalled).cmds ∧
    (∀ c ∈ (triggerReconcile stalledSecEnv avSecondaryStalled).cmds,
      c ≠ Cmd.primaryLoad ∧ c ≠ Cmd.secondaryLoad) := by
  have hsync : ¬(avSecondaryStalled.secondary.srcLoaded = true
      ∧ tolerance < ratAbs (avSecondaryStalled.primary.currentTime
          - avSecondaryStalled.secondary.currentTime)) := by
    rintro ⟨-, hlt⟩
    rw [ratAbs_eq_abs] at hlt
    have : tolerance < 0 := by simpa [avSecondaryStalled] using hlt
    rw [tolerance_eq] at this
    norm_num at this
  have hroute := reconcileIter_notReady_route avSecondaryStalled
    rfl rfl rfl rfl hsync (Or.inr ⟨rfl, by decide⟩)
  have hcmds : (reconcileIter avSecondaryStalled).cmds
      = [Cmd.primaryPlay, Cmd.secondaryPause] := by
    rw [hroute, iterNotReady_cmds]
    decide
  have hnl := triggerReconcile_no_load stalledSecEnv avSecondaryStalled
  refine ⟨by decide, rfl, by decide, hcmds, by rw [hcmds]; decide, ?_⟩
  intro c hc
  exact ⟨fun he => hnl.1 (he ▸ hc), fun he => hnl.2 (he ▸ hc)⟩

/-- C5 amended — in a loop iteration with playback desired where at least
one resource's readiness is below HAVE_FUTURE_DATA (and no ended-reset or
drift correction intervenes), the engine plays whichever resource *is*
ready (to kick its stalled loading along), expectedly pauses whichever is
under-ready and not already paused, issues no reload (`load()`) command —
no reload mechanism exists in the loop — and continues looping. -/
theorem not_ready_plays_ready_resource (s : AV)
    (hup : s.userPaused = false) (hus : s.userSeeking = false)
    (hl : s.primary.srcLoaded = true) (he : s.primary.ended = false)
    (hsync : ¬(s.secondary.srcLoaded = true
      ∧ tolerance < ratAbs (s.primary.currentTime - s.secondary.currentTime)))
    (hnr : s.primary.readyState < HAVE_FUTURE_DATA
      ∨ (s.secondary.srcLoaded = true
         ∧ s.secondary.readyState < HAVE_FUTURE_DATA)) :
    (reconcileIter s).cont = true ∧
    (reconcileIter s).evs = [] ∧
    (reconcileIter s).cmds =
      (if s.primary.readyState < HAVE_FUTURE_DATA then
         (if s.primary.paused = false then [Cmd.primaryPause] else [])
       else [Cmd.primaryPlay]) ++
      (if s.secondary.srcLoaded = true
          ∧ s.secondary.readyState < HAVE_FUTURE_DATA then
         (if s.secondary.paused = false then [Cmd.secondaryPause] else [])
       else [Cmd.secondaryPlay]) ∧
    Cmd.primaryLoad ∉ (reconcileIter s).cmds ∧
    Cmd.secondaryLoad ∉ (reconcileIter s).cmds := by
  have hroute := reconcileIter_notReady_route s hup hus hl he hsync hnr
  rw [hroute]
  refine ⟨iterNotReady_cont s [], iterNotReady_evs s [], ?_, ?_, ?_⟩
  · rw [iterNotReady_cmds]
    simp only [List.nil_append]
  · exact (iterNotReady_no_load s [] (by simp) (by simp)).1
  · exact (iterNotReady_no_load s [] (by simp) (by simp)).2

theorem not_ready_plays_ready_resource_witness :
    (reconcileIter avSecondaryStalled).cont = true ∧
    Cmd.primaryLoad ∉ (reconcileIter avSecondaryStalled).cmds := by
  have hsync : ¬(avSecondaryStalled.secondary.srcLoaded = true
      ∧ tolerance < ratAbs (avSecondaryStalled.primary.currentTime
          - avSecondaryStalled.secondary.currentTime)) := by
    rintro ⟨-, hlt⟩
    rw [ratAbs_eq_abs] at hlt
    have : tolerance < 0 := by simpa [avSecondaryStalled] using hlt
    rw [tolerance_eq] at this
    norm_num at this
  have h := not_ready_plays_ready_resource avSecondaryStalled
    rfl rfl rfl rfl hsync (Or.inr ⟨rfl, by decide⟩)
  exact ⟨h.1, h.2.2.2.1⟩

/-- C6 counterexample — the claim "setting currentTime stores the value as
a pending goalCurrentTime and applies it to primary within the pass" is
false: with a pass RUNNING, a `currentTime` set runs zero pass iterations
and emits nothing (the trigger is absorbed), yet the primary's position has
already changed to the requested value — the write happens synchronously in
the setter, not inside the pass, and no pending goal exists. -/
theorem goal_current_time_counterexample :
    avRunning.reconciliationState = ReconciliationState.RUNNING ∧
    avRunning.primary.currentTime = 0 ∧
    (setCurrentTimeOp idEnv avRunning 10).iters = 0 ∧
    (setCurrentTimeOp idEnv avRunning 10).evs = [] ∧
    (setCurrentTimeOp idEnv avRunning 10).s.primary.currentTime = 10 := by
  have habs : triggerReconcile idEnv (setCurrentTimeWrite avRunning 10).1
      = LoopOut.mk (setCurrentTimeWrite avRunning 10).1 [] [] 0 := by
    rw [triggerReconcile,
        if_pos (show (setCurrentTimeWrite avRunning 10).1.reconciliationState
          = ReconciliationState.RUNNING from rfl)]
  refine ⟨rfl, rfl, ?_, ?_, ?_⟩
  · unfold setCurrentTimeOp
    dsimp only
    rw [habs]
  · unfold setCurrentTimeOp
    dsimp only
    rw [habs]
  · unfold setCurrentTimeOp
    dsimp only
    rw [habs]
    rfl

/-- C6 amended — setting `currentTime` writes the requested value directly
and synchronously to the primary's position when a primary source is loaded
(and writes nothing otherwise), issues the corresponding position command,
then requests a convergence pass; no pending `goalCurrentTime` is stored;
the `currentTime` getter returns the primary's position. -/
theorem set_current_time_writes_directly (env : Env) (s : AV) (t : ℚ) :
    (s.primary.srcLoaded = true →
      (setCurrentTimeWrite s t).1 = { s with primary := s.primary.setTime t } ∧
      (setCurrentTimeWrite s t).1.primary.currentTime = t ∧
      (setCurrentTimeWrite s t).2 = [Cmd.primarySetTime t]) ∧
    (s.primary.srcLoaded = false → setCurrentTimeWrite s t = (s, [])) ∧
    setCurrentTimeOp env s t =
      LoopOut.mk (triggerReconcile env (setCurrentTimeWrite s t).1).s
        (triggerReconcile env (setCurrentTimeWrite s t).1).evs
        ((setCurrentTimeWrite s t).2
          ++ (triggerReconcile env (setCurrentTimeWrite s t).1).cmds)
        (triggerReconcile env (setCurrentTimeWrite s t).1).iters ∧
    getCurrentTime s = s.primary.currentTime := by
  refine ⟨fun h => ?_, fun h => ?_, rfl, rfl⟩
  · rw [setCurrentTimeWrite, if_pos h]
    exact ⟨rfl, rfl, rfl⟩
  · rw [setCurrentTimeWrite, if_neg (by simp [h])]

theorem set_current_time_writes_directly_witness :
    (setCurrentTimeWrite avRunning 7).1.primary.currentTime = 7 ∧
    (setCurrentTimeWrite avRunning 7).2 = [Cmd.primarySetTime 7] :=
  ⟨((set_current_time_writes_directly idEnv avRunning 7).1 rfl).2.1,
   ((set_current_time_writes_directly idEnv avRunning 7).1 rfl).2.2⟩

/-- A loaded, fully ready, playing primary with no secondary, engine idle,
desired state paused — the canonical target of a fresh `play()`. -/
def avPlayStable : AV :=
  AV.mk (Media.mk true false false 4 0) mediaNone true false
    ReconciliationState.IDLE false false

/-- C7 — Idempotence of play/pause: `playbackchange` fires exactly when
`userPaused` changes value (third conjunct, the setter contract of lines
49-53); hence two consecutive `play()` calls from a stable paused-desired
state, with no intervening state change, emit exactly one `playbackchange`
across both calls, and likewise two consecutive `pause()` calls from a
stable playing-desired state. -/
theorem play_pause_idempotent (env : Env) (s u : AV)
    (hs1 : s.userSeeking = false) (hs2 : s.primary.srcLoaded = true)
    (hs3 : s.primary.ended = false)
    (hs4 : ¬ s.primary.readyState < HAVE_FUTURE_DATA)
    (hs5 : s.primary.paused = false) (hs6 : s.secondary.srcLoaded = false)
    (hs7 : s.reconciliationState = ReconciliationState.IDLE)
    (hs8 : s.userPaused = true)
    (hu1 : u.primary.paused = true)
    (hu2 : ¬(u.secondary.srcLoaded = true ∧ u.secondary.paused = false))
    (hu3 : u.reconciliationState = ReconciliationState.IDLE)
    (hu4 : u.userPaused = false) :
    ((playOp env s).evs ++ (playOp env (playOp env s).s).evs).count
        Ev.playbackchange = 1 ∧
    ((pauseOp env u).evs ++ (pauseOp env (pauseOp env u).s).evs).count
        Ev.playbackchange = 1 ∧
    (∀ w v, (setUserPaused w v).2
        = if w.userPaused = v then [] else [Ev.playbackchange]) := by
  have htr1 := triggerReconcile_break env (setUserPaused s false).1
    (by simpa [setUserPaused] using hs7)
    (reconcileIter_stablePlay _ rfl (by simpa [setUserPaused] using hs1)
      (by simpa [setUserPaused] using hs2) (by simpa [setUserPaused] using hs3)
      (by simpa [setUserPaused] using hs4) (by simpa [setUserPaused] using hs5)
      (by simpa [setUserPaused] using hs6))
  have hp1 : playOp env s = LoopOut.mk (setUserPaused s false).1
      [Ev.playbackchange,
       Ev.reconciliationstatechange ReconciliationState.RUNNING,
       Ev.reconciliationstatechange ReconciliationState.IDLE] [] 0 := by
    unfold playOp
    dsimp only
    rw [htr1]
    simp [setUserPaused, hs8]
  have htr2 := triggerReconcile_break env
    (setUserPaused (setUserPaused s false).1 false).1
    (by simpa [setUserPaused] using hs7)
    (reconcileIter_stablePlay _ rfl (by simpa [setUserPaused] using hs1)
      (by simpa [setUserPaused] using hs2) (by simpa [setUserPaused] using hs3)
      (by simpa [setUserPaused] using hs4) (by simpa [setUserPaused] using hs5)
      (by simpa [setUserPaused] using hs6))
  have hp2 : playOp env (setUserPaused s false).1
      = LoopOut.mk (setUserPaused (setUserPaused s false).1 false).1
        [Ev.reconciliationstatechange ReconciliationState.RUNNING,
         Ev.reconciliationstatechange ReconciliationState.IDLE] [] 0 := by
    unfold playOp
    dsimp only
    rw [htr2]
    simp [setUserPaused]
  have htrP1 := triggerReconcile_break env (setUserPaused u true).1
    (by simpa [setUserPaused] using hu3)
    (reconcileIter_allPaused _ rfl (by simpa [setUserPaused] using hu1)
      (by simpa [setUserPaused] using hu2))
  have hq1 : pauseOp env u = LoopOut.mk (setUserPaused u true).1
      [Ev.playbackchange,
       Ev.reconciliationstatechange ReconciliationState.RUNNING,
       Ev.reconciliationstatechange ReconciliationState.IDLE] [] 0 := by
    unfold pauseOp
    dsimp only
    rw [htrP1]
    simp [setUserPaused, hu4]
  have htrP2 := triggerReconcile_break env
    (setUserPaused (setUserPaused u true).1 true).1
    (by simpa [setUserPaused] using hu3)
    (reconcileIter_allPaused _ rfl (by simpa [setUserPaused] using hu1)
      (by simpa [setUserPaused] using hu2))
  have hq2 : pauseOp env (setUserPaused u true).1
      = LoopOut.mk (setUserPaused (setUserPaused u true).1 true).1
        [Ev.reconciliationstatechange ReconciliationState.RUNNING,
         Ev.reconciliationstatechange ReconciliationState.IDLE] [] 0 := by
    unfold pauseOp
    dsimp only
    rw [htrP2]
    simp [setUserPaused]
  refine ⟨?_, ?_, fun w v => rfl⟩
  · rw [hp1]
    dsimp only
    rw [hp2]
    dsimp only
    decide
  · rw [hq1]
    dsimp only
    rw [hq2]
    dsimp only
    decide

theorem play_pause_idempotent_witness :
    ((playOp idEnv avPlayStable).evs
      ++ (playOp idEnv (playOp idEnv avPlayStable).s).evs).count
        Ev.playbackchange = 1 ∧
    ((pauseOp idEnv avStuck).evs
      ++ (pauseOp idEnv (pauseOp idEnv avStuck).s).evs).count
        Ev.playbackchange = 1 := by
  have h := play_pause_idempotent idEnv avPlayStable avStuck
    rfl rfl rfl (by decide) rfl rfl rfl rfl rfl (by decide) rfl rfl
  exact ⟨h.1, h.2.1⟩

end SyncAV
